import Mathlib

/-!
Verification of the sealer cluster runtime code (package `kubernetes` in
`src/cmd/sealer/cmd/login.go`): version-aware kubeadm command generation,
join-credential parsing, and master join/delete sequencing.

Go strings are modelled as Lean `String` (with `List Char` helpers that have
the semantics of the `strings` package functions the code uses); remote
calls (SSH client creation, command execution) are injected outcomes held in
environment records, mirroring the code's use of an SSH client collaborator.
-/

/-- Go `strings.Replace(s, old, "", -1)` (remove every non-overlapping
occurrence of `pat`, scanning left to right) on `List Char`.  The `fuel`
argument is `s.length` at the top call; each recursive step consumes at least
one character of `s`, so the fuel-exhausted branch is never reached (the
function is kept structural in `fuel` so proofs can evaluate it). -/
def replaceFuel (pat : List Char) : Nat → List Char → List Char
  | _, [] => []
  | 0, _ => []
  | fuel + 1, c :: rest =>
    if (!pat.isEmpty) && pat.isPrefixOf (c :: rest) then
      replaceFuel pat fuel ((c :: rest).drop pat.length)
    else
      c :: replaceFuel pat fuel rest

/-- Go `strings.Replace(s, pat, "", -1)`. -/
def goReplace (s pat : String) : String :=
  String.mk (replaceFuel pat.data s.data.length s.data)

/-- Go `strings.Split(s, sep)` for a non-empty separator, on `List Char`:
the pieces between non-overlapping occurrences of `pat`, scanning left to
right; `cur` holds the current piece reversed.  Fuel as in `replaceFuel`. -/
def splitFuel (pat : List Char) : Nat → List Char → List Char → List (List Char)
  | _, [], cur => [cur.reverse]
  | 0, s, cur => [cur.reverse ++ s]
  | fuel + 1, c :: rest, cur =>
    if (!pat.isEmpty) && pat.isPrefixOf (c :: rest) then
      cur.reverse :: splitFuel pat fuel ((c :: rest).drop pat.length) []
    else
      splitFuel pat fuel rest (c :: cur)

/-- Go `strings.Split(s, sep)` (the code only splits on the non-empty
separators "Using certificate key:", "," and "."). -/
def goSplit (s sep : String) : List String :=
  (splitFuel sep.data s.data.length s.data []).map String.mk

/-- A character never survives the removal of its single-character pattern:
`strings.Replace(s, "\n", "", -1)` leaves no `'\n'` behind. -/
theorem not_mem_replaceFuel_single (a : Char) (fuel : Nat) (s : List Char) :
    a ∉ replaceFuel [a] fuel s := by
  induction fuel generalizing s with
  | zero => cases s <;> simp [replaceFuel]
  | succ fuel ih =>
    cases s with
    | nil => simp [replaceFuel]
    | cons c rest =>
      by_cases h : a = c
      · subst h
        have hcond : ((!(([a] : List Char).isEmpty)) &&
            ([a].isPrefixOf (a :: rest))) = true := by
          simp [List.isPrefixOf]
        simp only [replaceFuel, hcond, if_true, List.length_cons,
          List.length_nil, Nat.zero_add, List.drop_succ_cons, List.drop_zero]
        exact ih rest
      · have hcond : ((!(([a] : List Char).isEmpty)) &&
            ([a].isPrefixOf (c :: rest))) = false := by
          simp [List.isPrefixOf, h]
        simp only [replaceFuel, hcond, Bool.false_eq_true, if_false]
        intro hmem
        rcases List.mem_cons.mp hmem with h1 | h1
        · exact h h1
        · exact ih rest h1

/-- No `'\n'` remains in `goReplace s "\n"`. -/
theorem newline_not_mem_goReplace (s : String) : '\n' ∉ (goReplace s "\n").data := by
  show '\n' ∉ replaceFuel "\n".data s.data.length s.data
  have : "\n".data = ['\n'] := rfl
  rw [this]
  exact not_mem_replaceFuel_single '\n' _ _

/-- `Except` success as a `Bool` (Go's `err == nil`). -/
def isOkResult {α : Type} : Except String α → Bool
  | .ok _ => true
  | .error _ => false

/-! ## `Runtime.GetJoinTokenHashAndKey` (login.go 550-583) -/

/-- Outcomes of the remote calls `GetJoinTokenHashAndKey` makes against
master0: the output of the `kubeadm init phase upload-certs` command (via
`CmdToString`, an error when the remote call fails), whether
`getHostSSHClient(master0)` succeeds, and the result of the
`kubeadm token create` command. -/
structure CredEnv where
  uploadOutput : Except String String
  master0SshOk : Bool
  tokenOutput : Except String String

def certKeyMarker : String := "Using certificate key:"

/-- `Runtime.GetJoinTokenHashAndKey`: runs upload-certs on master0, splits the
output on the fixed marker, demands exactly two segments, removes every
"\r\n" and then every "\n" from the second segment and stores the result as
`k.CertificateKey`; then obtains an SSH client for master0 and runs the
token-create command.  `decodeMaster0Output` (defined outside the staged
files) only parses token and CA-cert hash from that output and cannot fail,
so it is modelled as consuming the output.  The stored certificate key is
returned in the `ok` case so the claims can speak about it. -/
def getJoinTokenHashAndKey (env : CredEnv) : Except String String :=
  match env.uploadOutput with
  | .error e => .error e
  | .ok output =>
    let slice := goSplit output certKeyMarker
    if slice.length ≠ 2 then
      .error "failed to get certifacate key"
    else
      let key := goReplace (slice.getD 1 "") "\r\n"
      let certificateKey := goReplace key "\n"
      if !env.master0SshOk then
        .error "failed to get join token hash and key"
      else
        match env.tokenOutput with
        | .error _ => .error "failed to create kubeadm join token"
        | .ok _ => .ok certificateKey

/-- C2: `GetJoinTokenHashAndKey` returns an error exactly when a remote call
fails (upload-certs, the master0 SSH client, or token creation) or when
splitting the upload-certs output on "Using certificate key:" yields a number
of segments different from two; on success the stored certificate key
contains no line-break character. -/
theorem getJoinTokenHashAndKey_spec (env : CredEnv) :
    (isOkResult (getJoinTokenHashAndKey env) = true ↔
      (∃ out, env.uploadOutput = Except.ok out ∧
        (goSplit out certKeyMarker).length = 2) ∧
      env.master0SshOk = true ∧ isOkResult env.tokenOutput = true) ∧
    (∀ key, getJoinTokenHashAndKey env = Except.ok key → '\n' ∉ key.data) := by
  obtain ⟨upload, sshOk, token⟩ := env
  constructor
  · cases upload with
    | error e => simp [getJoinTokenHashAndKey, isOkResult]
    | ok output =>
      by_cases hlen : (goSplit output certKeyMarker).length = 2
      · cases sshOk with
        | false => simp [getJoinTokenHashAndKey, isOkResult, hlen]
        | true =>
          cases token with
          | error e => simp [getJoinTokenHashAndKey, isOkResult, hlen]
          | ok out2 => simp [getJoinTokenHashAndKey, isOkResult, hlen]
      · simp [getJoinTokenHashAndKey, isOkResult, hlen]
  · intro key hkey
    cases upload with
    | error e => simp [getJoinTokenHashAndKey] at hkey
    | ok output =>
      by_cases hlen : (goSplit output certKeyMarker).length = 2
      · cases sshOk with
        | false => simp [getJoinTokenHashAndKey, hlen] at hkey
        | true =>
          cases token with
          | error e => simp [getJoinTokenHashAndKey, hlen] at hkey
          | ok out2 =>
            have hred : getJoinTokenHashAndKey
                ⟨Except.ok output, true, Except.ok out2⟩ =
                Except.ok (goReplace (goReplace
                  ((goSplit output certKeyMarker).getD 1 "") "\r\n") "\n") := by
              simp [getJoinTokenHashAndKey, hlen]
            rw [hred] at hkey
            injection hkey with hk
            rw [← hk]
            exact newline_not_mem_goReplace _
      · simp [getJoinTokenHashAndKey, hlen] at hkey

/-- A well-formed upload-certs output: exactly one marker occurrence. -/
def credEnvSample : CredEnv :=
  { uploadOutput := Except.ok "[upload-certs] Using certificate key:\r\nabc0123def\r\n"
    master0SshOk := true
    tokenOutput := Except.ok "kubeadm join 10.0.0.1:6443 --token t" }

/-- Witness for C2 at a concrete well-formed output: the parse succeeds and
the stored key "abc0123def" has no embedded line break. -/
theorem getJoinTokenHashAndKey_spec_witness :
    '\n' ∉ ("abc0123def" : String).data :=
  (getJoinTokenHashAndKey_spec credEnvSample).2 "abc0123def" rfl

/-! ## Version policy and `Runtime.Command` (login.go 105-143, 332-373) -/

/-- Digits of a natural number, Go `strconv.Atoi` style: a non-empty
all-digit string parses; anything else does not. -/
def parseNatChars (s : List Char) : Option Nat :=
  if s.isEmpty then none
  else if s.all Char.isDigit then
    some (s.foldl (fun acc c => acc * 10 + (c.toNat - 48)) 0)
  else none

/-- Split on the dot separator (structural helper for version parsing). -/
def splitDot : List Char → List Char → List (List Char)
  | [], cur => [cur.reverse]
  | c :: rest, cur =>
    if c = '.' then cur.reverse :: splitDot rest [] else splitDot rest (c :: cur)

/-- Modelled from the spec: the semantic-version parser of the repository's
`utils/version` package (its source is not under src/).  Per the spec the
Version Policy is a "pure function mapping a semantic Kubernetes version
string to a command-template variant (pre/post a compatibility threshold)";
a version string is an optional leading `v` followed by three dot-separated
numeric components ("v1.15.0", "1.14.9"). -/
def semverParse (s : String) : Option (Nat × Nat × Nat) :=
  let cs := match s.data with
    | 'v' :: rest => rest
    | l => l
  match splitDot cs [] with
  | [a, b, c] =>
    match parseNatChars a, parseNatChars b, parseNatChars c with
    | some x, some y, some z => some (x, y, z)
    | _, _, _ => none
  | _ => none

/-- Numeric semver ordering: `a` at or above `b`. -/
def semverGE (a b : Nat × Nat × Nat) : Bool :=
  if a.1 > b.1 then true
  else if a.1 = b.1 then
    if a.2.1 > b.2.1 then true
    else if a.2.1 = b.2.1 then a.2.2 ≥ b.2.2
    else false
  else false

/-- Modelled from the spec: `versionUtils.Version.Compare` — whether `v` is at
or above `threshold`; "unknown version falls back to the lower-bound command
family and logs a warning rather than failing", so an unparsable version
yields an error whose caller keeps the zero value `false`. -/
def versionCompare (v threshold : String) : Except String Bool :=
  match semverParse v, semverParse threshold with
  | some a, some b => .ok (semverGE a b)
  | _, _ => .error "failed to compare version"

def V1150 : String := "v1.15.0"

/-- The fields of `Runtime` that `Command` reads: rootfs path, master0 IP,
VIP, join token, CA-cert hash, certificate key, the verbosity level `Vlog`,
and whether `runtime.IsInContainer()` holds (an environment probe defined
outside the staged files, modelled as a field). -/
structure RuntimeEnv where
  rootfs : String
  master0IP : String
  vip : String
  joinToken : String
  tokenCaCertHash : String
  certificateKey : String
  vlog : Int
  inContainer : Bool

/-- `vlogToStr` (login.go 332-335). -/
def vlogToStr (vlog : Int) : String := " -v " ++ toString vlog

/-- `CommandType` is a Go string type with three named constants; `other`
stands for every remaining string value. -/
inductive CommandType where
  | initMaster
  | joinMaster
  | joinNode
  | other (name : String)
deriving DecidableEq

/-- The pre-1.15 command family (`InitMaster115Lower`, `JoinMaster115Lower`,
`JoinNode115Lower` with their sprintf arguments); `other` roles are not keys
of the command map. -/
def lowerFamily (k : RuntimeEnv) : CommandType → Option String
  | .initMaster => some ("kubeadm init --config=" ++ k.rootfs ++
      "/etc/kubeadm.yml --experimental-upload-certs")
  | .joinMaster => some ("kubeadm join " ++ k.master0IP ++ ":6443 --token " ++
      k.joinToken ++ " --discovery-token-ca-cert-hash " ++ k.tokenCaCertHash ++
      " --experimental-control-plane --certificate-key " ++ k.certificateKey)
  | .joinNode => some ("kubeadm join " ++ k.vip ++ ":6443 --token " ++
      k.joinToken ++ " --discovery-token-ca-cert-hash " ++ k.tokenCaCertHash)
  | .other _ => none

/-- The 1.15-and-above command family (`InitMaser115Upper`,
`JoinMaster115Upper`, `JoinNode115Upper`). -/
def upperFamily (k : RuntimeEnv) : CommandType → Option String
  | .initMaster => some ("kubeadm init --config=" ++ k.rootfs ++
      "/etc/kubeadm.yml --upload-certs")
  | .joinMaster => some ("kubeadm join --config=" ++ k.rootfs ++
      "/etc/kubeadm.yml")
  | .joinNode => some ("kubeadm join --config=" ++ k.rootfs ++
      "/etc/kubeadm.yml")
  | .other _ => none

/-- The map lookup `cmds[name]` after the version test: the lower-family map
is built first and overwritten with the upper family when
`kv.Compare(V1150)` returns true; a comparison error is logged and the zero
value `false` (lower family) is kept. -/
def selectedTemplate (k : RuntimeEnv) (version : String) (name : CommandType) :
    Option String :=
  let cmp := match versionCompare version V1150 with
    | .ok b => b
    | .error _ => false
  if cmp then upperFamily k name else lowerFamily k name

/-- `Runtime.Command` (login.go 337-373).  An unknown role fails the map
lookup: the code logs "failed to get kubeadm command" and returns the empty
string (there is no error return value).  Otherwise the command gets the
verbosity flag and the environment-dependent preflight flag appended
(`fmt.Sprintf("%s%s%s", v, vlogToStr(k.Vlog), flag)`). -/
def Command (k : RuntimeEnv) (version : String) (name : CommandType) : String :=
  match selectedTemplate k version name with
  | none => ""
  | some v =>
    if k.inContainer then
      v ++ (vlogToStr k.vlog ++ " --ignore-preflight-errors=all")
    else if name = CommandType.initMaster ∨ name = CommandType.joinMaster then
      v ++ (vlogToStr k.vlog ++ " --ignore-preflight-errors=SystemVerification")
    else
      v ++ (vlogToStr k.vlog ++ "")

/-- The suffix `Command` appends after the selected template: the verbosity
flag, then the preflight flag the environment and role call for. -/
def cmdSuffix (k : RuntimeEnv) (name : CommandType) : String :=
  vlogToStr k.vlog ++
    (if k.inContainer then " --ignore-preflight-errors=all"
     else if name = CommandType.initMaster ∨ name = CommandType.joinMaster then
       " --ignore-preflight-errors=SystemVerification"
     else "")

/-- Shared helper: when the role is a key of the command map, `Command` is
the selected template followed by `cmdSuffix`. -/
theorem command_eq_of_selected (k : RuntimeEnv) (version : String)
    (name : CommandType) (base : String)
    (h : selectedTemplate k version name = some base) :
    Command k version name = base ++ cmdSuffix k name := by
  unfold Command cmdSuffix
  rw [h]
  by_cases hc : k.inContainer
  · simp [hc, String.append_assoc]
  · by_cases hn : name = CommandType.initMaster ∨ name = CommandType.joinMaster
    · simp [hc, hn, String.append_assoc]
    · simp [hc, hn, String.append_assoc]

/-- How the template-family selection relates to the parsed version. -/
theorem selectedTemplate_of_parse (k : RuntimeEnv) (v : String)
    (t : Nat × Nat × Nat) (hp : semverParse v = some t) (name : CommandType) :
    selectedTemplate k v name =
      if semverGE t (1, 15, 0) then upperFamily k name else lowerFamily k name := by
  unfold selectedTemplate versionCompare
  rw [hp]
  have hV : semverParse V1150 = some (1, 15, 0) := rfl
  rw [hV]

/-- C1: for every parsable Kubernetes version at or above the 1.15.0
threshold, `Command` renders the config-file family for each of the three
roles; below the threshold it renders the explicit-flag family with master0
address (VIP for a node join), join token, CA-cert hash and certificate key
interpolated; and the config-file family is selected at the boundary version
1.15.0 itself. -/
theorem command_version_threshold (k : RuntimeEnv) (v : String)
    (t : Nat × Nat × Nat) (hp : semverParse v = some t) :
    (semverGE t (1, 15, 0) = true →
      Command k v CommandType.initMaster =
        ("kubeadm init --config=" ++ k.rootfs ++
          "/etc/kubeadm.yml --upload-certs") ++
          cmdSuffix k CommandType.initMaster ∧
      Command k v CommandType.joinMaster =
        ("kubeadm join --config=" ++ k.rootfs ++ "/etc/kubeadm.yml") ++
          cmdSuffix k CommandType.joinMaster ∧
      Command k v CommandType.joinNode =
        ("kubeadm join --config=" ++ k.rootfs ++ "/etc/kubeadm.yml") ++
          cmdSuffix k CommandType.joinNode) ∧
    (semverGE t (1, 15, 0) = false →
      Command k v CommandType.initMaster =
        ("kubeadm init --config=" ++ k.rootfs ++
          "/etc/kubeadm.yml --experimental-upload-certs") ++
          cmdSuffix k CommandType.initMaster ∧
      Command k v CommandType.joinMaster =
        ("kubeadm join " ++ k.master0IP ++ ":6443 --token " ++ k.joinToken ++
          " --discovery-token-ca-cert-hash " ++ k.tokenCaCertHash ++
          " --experimental-control-plane --certificate-key " ++
          k.certificateKey) ++
          cmdSuffix k CommandType.joinMaster ∧
      Command k v CommandType.joinNode =
        ("kubeadm join " ++ k.vip ++ ":6443 --token " ++ k.joinToken ++
          " --discovery-token-ca-cert-hash " ++ k.tokenCaCertHash) ++
          cmdSuffix k CommandType.joinNode) ∧
    Command k V1150 CommandType.joinMaster =
      ("kubeadm join --config=" ++ k.rootfs ++ "/etc/kubeadm.yml") ++
        cmdSuffix k CommandType.joinMaster := by
  refine ⟨fun h => ⟨?_, ?_, ?_⟩, fun h => ⟨?_, ?_, ?_⟩, ?_⟩
  · exact command_eq_of_selected _ _ _ _
      (by rw [selectedTemplate_of_parse k v t hp]; simp [h, upperFamily])
  · exact command_eq_of_selected _ _ _ _
      (by rw [selectedTemplate_of_parse k v t hp]; simp [h, upperFamily])
  · exact command_eq_of_selected _ _ _ _
      (by rw [selectedTemplate_of_parse k v t hp]; simp [h, upperFamily])
  · exact command_eq_of_selected _ _ _ _
      (by rw [selectedTemplate_of_parse k v t hp]; simp [h, lowerFamily])
  · exact command_eq_of_selected _ _ _ _
      (by rw [selectedTemplate_of_parse k v t hp]; simp [h, lowerFamily])
  · exact command_eq_of_selected _ _ _ _
      (by rw [selectedTemplate_of_parse k v t hp]; simp [h, lowerFamily])
  · exact command_eq_of_selected _ _ _ _ rfl

/-- A concrete runtime configuration used by the concrete-input theorems. -/
def kSample : RuntimeEnv :=
  { rootfs := "/var/lib/sealer/data/my-cluster/rootfs"
    master0IP := "192.168.0.2"
    vip := "10.103.97.2"
    joinToken := "abcdef.0123456789abcdef"
    tokenCaCertHash := "sha256:3f40"
    certificateKey := "8376c70a"
    vlog := 0
    inContainer := false }

/-- Witness for C1: version "1.14.9" with role JoinMaster renders the
explicit token/hash/certificate-key command, and "1.23.0" renders the
config-file command. -/
theorem command_version_threshold_witness :
    Command kSample "1.14.9" CommandType.joinMaster =
      ("kubeadm join " ++ kSample.master0IP ++ ":6443 --token " ++
        kSample.joinToken ++ " --discovery-token-ca-cert-hash " ++
        kSample.tokenCaCertHash ++
        " --experimental-control-plane --certificate-key " ++
        kSample.certificateKey) ++
        cmdSuffix kSample CommandType.joinMaster ∧
    Command kSample "1.23.0" CommandType.joinMaster =
      ("kubeadm join --config=" ++ kSample.rootfs ++ "/etc/kubeadm.yml") ++
        cmdSuffix kSample CommandType.joinMaster :=
  ⟨((command_version_threshold kSample "1.14.9" (1, 14, 9) rfl).2.1
      (by decide)).2.1,
   ((command_version_threshold kSample "1.23.0" (1, 23, 0) rfl).1
      (by decide)).2.1⟩

/-- C8: the command `Command` returns is always the selected template, then
the verbosity flag derived from `Vlog`, then the preflight flag the
environment and role call for — all preflight checks relaxed inside a
container, system verification only for init/join-master outside one, and no
preflight flag at all for a node join outside one (the `""` branch of
`cmdSuffix`). -/
theorem command_suffix_spec (k : RuntimeEnv) (version : String)
    (name : CommandType) (base : String)
    (h : selectedTemplate k version name = some base) :
    Command k version name =
      base ++ (vlogToStr k.vlog ++
        (if k.inContainer then " --ignore-preflight-errors=all"
         else if name = CommandType.initMaster ∨ name = CommandType.joinMaster
           then " --ignore-preflight-errors=SystemVerification"
         else "")) :=
  command_eq_of_selected k version name base h

/-- Witness for C8 at a concrete input: a node join outside a container ends
with the verbosity flag and no preflight flag. -/
theorem command_suffix_spec_witness :
    Command kSample "v1.23.0" CommandType.joinNode =
      ("kubeadm join --config=" ++ kSample.rootfs ++ "/etc/kubeadm.yml") ++
        (vlogToStr kSample.vlog ++
          (if kSample.inContainer then " --ignore-preflight-errors=all"
           else if CommandType.joinNode = CommandType.initMaster ∨
               CommandType.joinNode = CommandType.joinMaster
             then " --ignore-preflight-errors=SystemVerification"
           else "")) :=
  command_suffix_spec kSample "v1.23.0" CommandType.joinNode
    ("kubeadm join --config=" ++ kSample.rootfs ++ "/etc/kubeadm.yml") rfl

/-- C7 counterexample: at the unknown role "worker" `Command` does not return
an "unsupported role" error: the function has no error return value at all —
it logs "failed to get kubeadm command" and yields the empty string. -/
theorem command_unknown_role_counterexample :
    Command kSample "v1.16.0" (CommandType.other "worker") = "" := rfl

/-- C7 amended: for every role other than the three named constants,
`Command` returns the empty string (the failure is logged, not returned as an
error); for an unparseable version it does not fail but keeps the lower-bound
(pre-1.15) command family. -/
theorem command_unknown_role_and_version (k : RuntimeEnv) (v s : String) :
    Command k v (CommandType.other s) = "" ∧
    (semverParse v = none →
      ∀ name, selectedTemplate k v name = lowerFamily k name) := by
  constructor
  · have hsel : selectedTemplate k v (CommandType.other s) = none := by
      unfold selectedTemplate
      cases versionCompare v V1150 with
      | ok b => cases b <;> simp [upperFamily, lowerFamily]
      | error e => simp [lowerFamily]
    simp [Command, hsel]
  · intro hnone name
    unfold selectedTemplate versionCompare
    rw [hnone]
    simp

/-! ## `Runtime.joinMasters` (login.go 375-435) -/

/-- Host addresses, as the strings the code prints them as. -/
abbrev IP := String

/-- Outcomes of the collaborator calls `joinMasters` makes, in program order:
`MergeKubeadmConfig`, `WaitSSHReady`, `GetJoinTokenHashAndKey`,
`CopyStaticFiles`, `SendJoinMasterKubeConfigs`, `sendRegistryCert`,
`sendNewCertAndKey`, `sendJoinCPConfig` (all defined outside the staged
lines or fanning out to remote hosts), then per master the remote hostname
query, the SSH client and the command batch execution. -/
structure JoinEnv where
  rt : RuntimeEnv
  kubeVersion : String
  mergeOk : Bool
  waitOk : Bool
  fetchOk : Bool
  copyStaticOk : Bool
  sendKubeConfigsOk : Bool
  sendRegistryCertOk : Bool
  sendCertAndKeyOk : Bool
  sendJoinCPOk : Bool
  hostnameRes : IP → Except String String
  sshClientOk : IP → Bool
  execOk : IP → Bool

/-- The observable steps of a `joinMasters` run. -/
inductive JoinStep where
  | mergeKubeadmConfig
  | waitSSHReady
  | fetchJoinCredentials
  | copyStaticFiles
  | sendJoinMasterKubeConfigs
  | sendRegistryCert
  | sendNewCertAndKey
  | sendJoinCPConfig
  | getRemoteHostName (ip : IP)
  | execJoinCommands (ip : IP)
deriving DecidableEq

/-- The per-master loop at the end of `joinMasters` (login.go 411-433):
query the remote hostname, build the command batch (`JoinMasterCommands`,
whose command strings do not affect the step sequencing), get the SSH
client, and run the batch; the first failure aborts the loop. -/
def joinMastersLoop (env : JoinEnv) : List IP → List JoinStep × Except String Unit
  | [] => ([], .ok ())
  | m :: rest =>
    match env.hostnameRes m with
    | .error e => ([JoinStep.getRemoteHostName m], .error e)
    | .ok _hostname =>
      if !env.sshClientOk m then
        ([JoinStep.getRemoteHostName m], .error "failed to get ssh client")
      else if !env.execOk m then
        ([JoinStep.getRemoteHostName m, JoinStep.execJoinCommands m],
          .error "failed to exec command on master")
      else
        let next := joinMastersLoop env rest
        (JoinStep.getRemoteHostName m :: JoinStep.execJoinCommands m :: next.1,
          next.2)

/-- `Runtime.joinMasters`: an empty target list short-circuits; otherwise the
staged pipeline runs in order, each stage aborting on failure, with
`GetJoinTokenHashAndKey` run once between the reachability wait and the
distribution stages; then the join command is rendered once and the
per-master loop runs. -/
def joinMasters (env : JoinEnv) (masters : List IP) :
    List JoinStep × Except String Unit :=
  if masters.isEmpty then ([], .ok ())
  else if !env.mergeOk then
    ([JoinStep.mergeKubeadmConfig], .error "merge kubeadm config failed")
  else if !env.waitOk then
    ([JoinStep.mergeKubeadmConfig, JoinStep.waitSSHReady],
      .error "join masters wait for ssh ready time out")
  else if !env.fetchOk then
    ([JoinStep.mergeKubeadmConfig, JoinStep.waitSSHReady,
      JoinStep.fetchJoinCredentials], .error "failed to fetch credentials")
  else if !env.copyStaticOk then
    ([JoinStep.mergeKubeadmConfig, JoinStep.waitSSHReady,
      JoinStep.fetchJoinCredentials, JoinStep.copyStaticFiles],
      .error "failed to copy static files")
  else if !env.sendKubeConfigsOk then
    ([JoinStep.mergeKubeadmConfig, JoinStep.waitSSHReady,
      JoinStep.fetchJoinCredentials, JoinStep.copyStaticFiles,
      JoinStep.sendJoinMasterKubeConfigs],
      .error "failed to send kube configs")
  else if !env.sendRegistryCertOk then
    ([JoinStep.mergeKubeadmConfig, JoinStep.waitSSHReady,
      JoinStep.fetchJoinCredentials, JoinStep.copyStaticFiles,
      JoinStep.sendJoinMasterKubeConfigs, JoinStep.sendRegistryCert],
      .error "failed to send registry cert")
  else if !env.sendCertAndKeyOk then
    ([JoinStep.mergeKubeadmConfig, JoinStep.waitSSHReady,
      JoinStep.fetchJoinCredentials, JoinStep.copyStaticFiles,
      JoinStep.sendJoinMasterKubeConfigs, JoinStep.sendRegistryCert,
      JoinStep.sendNewCertAndKey],
      .error "failed to send cert and key")
  else if !env.sendJoinCPOk then
    ([JoinStep.mergeKubeadmConfig, JoinStep.waitSSHReady,
      JoinStep.fetchJoinCredentials, JoinStep.copyStaticFiles,
      JoinStep.sendJoinMasterKubeConfigs, JoinStep.sendRegistryCert,
      JoinStep.sendNewCertAndKey, JoinStep.sendJoinCPConfig],
      .error "failed to send join CP config")
  else
    let pre := [JoinStep.mergeKubeadmConfig, JoinStep.waitSSHReady,
      JoinStep.fetchJoinCredentials, JoinStep.copyStaticFiles,
      JoinStep.sendJoinMasterKubeConfigs, JoinStep.sendRegistryCert,
      JoinStep.sendNewCertAndKey, JoinStep.sendJoinCPConfig]
    if Command env.rt env.kubeVersion CommandType.joinMaster = "" then
      (pre, .error "failed to get join master command")
    else
      let next := joinMastersLoop env masters
      (pre ++ next.1, next.2)

/-- The per-master loop never runs the credential fetch. -/
theorem joinMastersLoop_no_fetch (env : JoinEnv) (masters : List IP) :
    (joinMastersLoop env masters).1.count JoinStep.fetchJoinCredentials = 0 := by
  induction masters with
  | nil => simp [joinMastersLoop]
  | cons m rest ih =>
    unfold joinMastersLoop
    cases env.hostnameRes m with
    | error e => simp [List.count_cons]
    | ok h =>
      cases hssh : env.sshClientOk m with
      | false => simp [hssh, List.count_cons]
      | true =>
        cases hexec : env.execOk m with
        | false => simp [hssh, hexec, List.count_cons]
        | true => simp [hssh, hexec, List.count_cons, ih]

/-- C3: for a non-empty master list, once the merge and reachability stages
pass, a `joinMasters` run executes the credential fetch exactly once, however
many masters join; and in every run (any outcomes, any list) it executes the
fetch at most once — never again per joining master. -/
theorem joinMasters_fetch_once (env : JoinEnv) (masters : List IP) :
    (masters ≠ [] → env.mergeOk = true → env.waitOk = true →
      (joinMasters env masters).1.count JoinStep.fetchJoinCredentials = 1) ∧
    (joinMasters env masters).1.count JoinStep.fetchJoinCredentials ≤ 1 := by
  constructor
  · intro hne hmerge hwait
    unfold joinMasters
    simp only [List.isEmpty_iff, hne, if_false, hmerge, hwait, Bool.not_true,
      Bool.false_eq_true]
    cases hf : env.fetchOk with
    | false => simp [List.count_cons]
    | true =>
      cases hc : env.copyStaticOk with
      | false => simp [List.count_cons]
      | true =>
        cases h1 : env.sendKubeConfigsOk with
        | false => simp [List.count_cons]
        | true =>
          cases h2 : env.sendRegistryCertOk with
          | false => simp [List.count_cons]
          | true =>
            cases h3 : env.sendCertAndKeyOk with
            | false => simp [List.count_cons]
            | true =>
              cases h4 : env.sendJoinCPOk with
              | false => simp [List.count_cons]
              | true =>
                by_cases h5 :
                    Command env.rt env.kubeVersion CommandType.joinMaster = ""
                · simp [h5, List.count_cons]
                · simp [h5, List.count_cons, List.count_append,
                    joinMastersLoop_no_fetch]
  · unfold joinMasters
    by_cases he : masters.isEmpty
    · simp [he]
    · simp only [he, if_false]
      cases hm : env.mergeOk with
      | false => simp [List.count_cons]
      | true =>
        cases hw : env.waitOk with
        | false => simp [List.count_cons]
        | true =>
          cases hf : env.fetchOk with
          | false => simp [List.count_cons]
          | true =>
            cases hc : env.copyStaticOk with
            | false => simp [List.count_cons]
            | true =>
              cases h1 : env.sendKubeConfigsOk with
              | false => simp [List.count_cons]
              | true =>
                cases h2 : env.sendRegistryCertOk with
                | false => simp [List.count_cons]
                | true =>
                  cases h3 : env.sendCertAndKeyOk with
                  | false => simp [List.count_cons]
                  | true =>
                    cases h4 : env.sendJoinCPOk with
                    | false => simp [List.count_cons]
                    | true =>
                      by_cases h5 : Command env.rt env.kubeVersion
                          CommandType.joinMaster = ""
                      · simp [h5, List.count_cons]
                      · simp [h5, List.count_cons, List.count_append,
                          joinMastersLoop_no_fetch]

/-- An all-successful join environment over five masters. -/
def joinEnvSample : JoinEnv :=
  { rt := kSample
    kubeVersion := "v1.19.8"
    mergeOk := true
    waitOk := true
    fetchOk := true
    copyStaticOk := true
    sendKubeConfigsOk := true
    sendRegistryCertOk := true
    sendCertAndKeyOk := true
    sendJoinCPOk := true
    hostnameRes := fun ip => Except.ok ("host-" ++ ip)
    sshClientOk := fun _ => true
    execOk := fun _ => true }

/-- Witness for C3: with five target masters the credential fetch runs
exactly once. -/
theorem joinMasters_fetch_once_witness :
    (joinMasters joinEnvSample
      ["192.168.0.3", "192.168.0.4", "192.168.0.5", "192.168.0.6",
        "192.168.0.7"]).1.count JoinStep.fetchJoinCredentials = 1 :=
  (joinMasters_fetch_once joinEnvSample
    ["192.168.0.3", "192.168.0.4", "192.168.0.5", "192.168.0.6",
      "192.168.0.7"]).1 (by decide) rfl rfl

/-! ## `Runtime.deleteMaster` (login.go 437-548) and `isHostName` (458-482) -/

/-- The cluster fields `deleteMaster` reads.  `seaHub` and `dockerCertDir`
are package constants defined outside the staged files (the internal
registry alias hostname and the docker certificate directory); they are kept
as fields so no value is assumed for them. -/
structure ClusterEnv where
  masterIPs : List IP
  nodeIPs : List IP
  master0IP : IP
  apiServerDomain : String
  regDomain : String
  seaHub : String
  dockerCertDir : String
  vlog : Int

/-- `RemoteCleanMasterOrNode` (login.go 127-135) with its sprintf argument
`vlogToStr(k.Vlog)`; the backslash-newline pairs of the Go raw string are
kept. -/
def remoteCleanMasterOrNode (vlog : Int) : String :=
  "if which kubeadm;then kubeadm reset -f " ++ vlogToStr vlog ++
    ";fi && \\\n" ++
    "modprobe -r ipip  && lsmod && \\\n" ++
    "rm -rf /etc/kubernetes/ && \\\n" ++
    "rm -rf /etc/systemd/system/kubelet.service.d && rm -rf /etc/systemd/system/kubelet.service && \\\n" ++
    "rm -rf /usr/bin/kubeadm && rm -rf /usr/bin/kubelet-pre-start.sh && \\\n" ++
    "rm -rf /usr/bin/kubelet && rm -rf /usr/bin/crictl && \\\n" ++
    "rm -rf /etc/cni && rm -rf /opt/cni && \\\n" ++
    "rm -rf /var/lib/etcd && rm -rf /var/etcd \n"

/-- `RemoteAddEtcHosts` with both sprintf arguments equal (as every caller
passes them). -/
def remoteAddEtcHosts (h : String) : String :=
  "cat /etc/hosts |grep '" ++ h ++ "' || echo '" ++ h ++ "' >> /etc/hosts"

/-- `RemoteRemoveAPIServerEtcHost`. -/
def remoteRemoveEtcHost (d : String) : String :=
  "sed -i \"/" ++ d ++ "/d\" /etc/hosts"

/-- `RemoteRemoveRegistryCerts` (`"rm -rf " + DockerCertDir + "/%s*"`). -/
def remoteRemoveRegistryCerts (certDir d : String) : String :=
  "rm -rf " ++ certDir ++ "/" ++ d ++ "*"

/-- `RemoveKubeConfig`. -/
def removeKubeConfigCmd : String := "rm -rf /usr/bin/kube* && rm -rf ~/.kube/"

/-- `KubeDeleteNode` with its sprintf argument. -/
def kubeDeleteNodeCmd (name : String) : String := "kubectl delete node " ++ name

/-- `getAPIServerHost` (login.go 178-180). -/
def getAPIServerHostStr (ip domain : String) : String := ip ++ " " ++ domain

/-- Go `strings.TrimSpace`. -/
def goTrim (s : String) : String :=
  String.mk
    (((s.data.dropWhile Char.isWhitespace).reverse.dropWhile
      Char.isWhitespace).reverse)

/-- Go `strings.ToLower` (the hostnames compared are ASCII DNS labels). -/
def goLower (s : String) : String := String.mk (s.data.map Char.toLower)

/-- Outcomes of the remote calls `deleteMaster` makes: the SSH client per
host, the cleanup batch on the target, `GetLocalHostAddresses` (`localAddrOk`
is Go's `err == nil`) and `IsLocalIP`, the two `CmdToString` outputs
`isHostName` reads (`kubectl get nodes … | awk` on master0 joined with ","
and `hostname` on the target), the master0 SSH client, the `kubectl delete
node` execution, and the per-worker lvscare refresh calls. -/
structure DelEnv where
  sshClientOk : IP → Bool
  cleanOk : Bool
  localAddrOk : Bool
  isLocalIP : IP → Bool
  nodesOutput : Except String String
  hostnameOutput : Except String String
  master0SshOk : Bool
  deleteNodeOk : Bool
  nodeSshOk : IP → Bool
  nodeCmdOk : IP → Bool

/-- The loop body of `isHostName` (login.go 469-480): first split piece that
is not blank after trimming and equals the hostname case-insensitively;
otherwise the empty string. -/
def findNodeName (hostName : String) : List String → String
  | [] => ""
  | h :: rest =>
    if goTrim h = "" then findNodeName hostName rest
    else if goLower h = goLower hostName then h
    else findNodeName hostName rest

/-- `Runtime.isHostName`: the two remote outputs, then the pure
cross-reference; a failed remote call propagates, no match is not an
error. -/
def isHostName (env : DelEnv) : Except String String :=
  match env.nodesOutput with
  | .error e => .error e
  | .ok hostString =>
    match env.hostnameOutput with
    | .error e => .error e
    | .ok hostName => .ok (findNodeName hostName (goSplit hostString ","))

/-- The `remoteCleanCmd` slice of `deleteMaster` (login.go 489-504): six
fixed cleanup commands, then either the kubeconfig removal (host not local,
or the local-address lookup failed) or the API-server `/etc/hosts`
re-add (host is the local execution machine). -/
def remoteCleanCmdList (env : DelEnv) (k : ClusterEnv) (master : IP) :
    List String :=
  let base := [remoteCleanMasterOrNode k.vlog,
    remoteRemoveEtcHost k.regDomain,
    remoteRemoveEtcHost k.seaHub,
    remoteRemoveRegistryCerts k.dockerCertDir k.regDomain,
    remoteRemoveRegistryCerts k.dockerCertDir k.seaHub,
    remoteRemoveEtcHost k.apiServerDomain]
  if !(env.localAddrOk && env.isLocalIP master) then
    base ++ [removeKubeConfigCmd]
  else
    base ++ [remoteAddEtcHosts (getAPIServerHostStr k.master0IP k.apiServerDomain)]

/-- The observable remote effects of a `deleteMaster` run. -/
inductive DelEvent where
  | cleanExec (host : IP) (cmds : List String)
  | kubectlDeleteNode (host : IP) (cmd : String)
  | lvscareUpdate (node : IP)
deriving DecidableEq

/-- The final fan-out of `deleteMaster` (login.go 531-547): refresh the
lvscare static pod on every worker (the manifest contents, built by
`ipvs.LvsStaticPodYaml` outside the staged files, do not affect the events);
each worker runs regardless of the others.  In the Go closure the inner
`if err := ssh.CmdAsync(…); err != nil` shadows `err`, so the final
`return err` propagates only the `getHostSSHClient` failure to the
errgroup — a failed `CmdAsync` is logged but yields `nil`. -/
def lvscarePhase (env : DelEnv) (k : ClusterEnv) (tr : List DelEvent) :
    List DelEvent × Except String Unit :=
  (tr ++ k.nodeIPs.map DelEvent.lvscareUpdate,
    if k.nodeIPs.any (fun n => !env.nodeSshOk n) then
      .error "failed to update lvscare static pod"
    else .ok ())

/-- `Runtime.deleteMaster`: SSH client for the target (failure is fatal), the
cleanup batch (failure is fatal), then the remaining-master list; if other
masters remain, resolve the deleted host's node name and run `kubectl delete
node <trimmed name>` against master0; finally refresh lvscare on the
workers. -/
def deleteMaster (env : DelEnv) (k : ClusterEnv) (master : IP) :
    List DelEvent × Except String Unit :=
  if !env.sshClientOk master then ([], .error "failed to delete master")
  else
    let cmds := remoteCleanCmdList env k master
    if !env.cleanOk then
      ([DelEvent.cleanExec master cmds], .error "failed to run cleanup batch")
    else
      let masterIPs := k.masterIPs.filter (fun ip => ip != master)
      if masterIPs.length > 0 then
        match isHostName env with
        | .error e => ([DelEvent.cleanExec master cmds], .error e)
        | .ok hostname =>
          if !env.master0SshOk then
            ([DelEvent.cleanExec master cmds],
              .error "failed to get master0 ssh client")
          else
            let tr := [DelEvent.cleanExec master cmds,
              DelEvent.kubectlDeleteNode k.master0IP
                (kubeDeleteNodeCmd (goTrim hostname))]
            if !env.deleteNodeOk then (tr, .error "failed to delete node")
            else lvscarePhase env k tr
      else lvscarePhase env k [DelEvent.cleanExec master cmds]

/-- `Runtime.deleteMasters` (login.go 437-456): fan out `deleteMaster` per
master; every per-master error is logged and `nil` returned to the
errgroup, so the batch always succeeds. -/
def deleteMasters (env : DelEnv) (k : ClusterEnv) (masters : List IP) :
    List DelEvent × Except String Unit :=
  if masters.isEmpty then ([], .ok ())
  else ((masters.map (fun m => (deleteMaster env k m).1)).flatten, .ok ())

/-! ### String disequalities between the cleanup commands -/

theorem strData_append (a b : String) : (a ++ b).data = a.data ++ b.data := rfl

theorem ne_of_head (s t : String) (h : s.data.head? ≠ t.data.head?) : s ≠ t :=
  fun he => h (by rw [he])

theorem ne_of_last (s t : String) (h : s.data.getLast? ≠ t.data.getLast?) :
    s ≠ t :=
  fun he => h (by rw [he])

theorem head_remoteAddEtcHosts (h : String) :
    (remoteAddEtcHosts h).data.head? = some 'c' := rfl

theorem head_remoteRemoveEtcHost (d : String) :
    (remoteRemoveEtcHost d).data.head? = some 's' := rfl

theorem head_remoteRemoveRegistryCerts (cd d : String) :
    (remoteRemoveRegistryCerts cd d).data.head? = some 'r' := rfl

theorem head_remoteCleanMasterOrNode (v : Int) :
    (remoteCleanMasterOrNode v).data.head? = some 'i' := rfl

theorem last_remoteRemoveRegistryCerts (cd d : String) :
    (remoteRemoveRegistryCerts cd d).data.getLast? = some '*' := by
  show (("rm -rf " ++ cd ++ "/" ++ d) ++ "*").data.getLast? = some '*'
  rw [strData_append]
  rw [show ("*" : String).data = ['*'] from rfl]
  exact List.getLast?_concat _

/-- C6: when the deleted master is the local execution host (the local
address lookup succeeded and matched), the cleanup batch re-adds the
API-server `/etc/hosts` entry and omits the kubeconfig removal; otherwise it
contains the kubeconfig removal and no `/etc/hosts` re-add command at all. -/
theorem remoteCleanCmdList_local_spec (env : DelEnv) (k : ClusterEnv)
    (master : IP) :
    ((env.localAddrOk && env.isLocalIP master) = true →
      remoteAddEtcHosts (getAPIServerHostStr k.master0IP k.apiServerDomain) ∈
        remoteCleanCmdList env k master ∧
      removeKubeConfigCmd ∉ remoteCleanCmdList env k master) ∧
    ((env.localAddrOk && env.isLocalIP master) = false →
      removeKubeConfigCmd ∈ remoteCleanCmdList env k master ∧
      ∀ h, remoteAddEtcHosts h ∉ remoteCleanCmdList env k master) := by
  constructor
  · intro hc
    unfold remoteCleanCmdList
    rw [hc]
    simp only [Bool.not_true, Bool.false_eq_true, if_false]
    constructor
    · simp
    · simp only [List.mem_append, List.mem_cons, List.not_mem_nil, or_false,
        List.mem_singleton]
      push_neg
      refine ⟨⟨?_, ?_, ?_, ?_, ?_, ?_⟩, ?_⟩
      · exact ne_of_head _ _ (by rw [head_remoteCleanMasterOrNode]; decide)
      · exact ne_of_head _ _ (by rw [head_remoteRemoveEtcHost]; decide)
      · exact ne_of_head _ _ (by rw [head_remoteRemoveEtcHost]; decide)
      · exact ne_of_last _ _ (by rw [last_remoteRemoveRegistryCerts]; decide)
      · exact ne_of_last _ _ (by rw [last_remoteRemoveRegistryCerts]; decide)
      · exact ne_of_head _ _ (by rw [head_remoteRemoveEtcHost]; decide)
      · exact ne_of_head _ _ (by rw [head_remoteAddEtcHosts]; decide)
  · intro hc
    unfold remoteCleanCmdList
    rw [hc]
    simp only [Bool.not_false, if_true]
    constructor
    · simp
    · intro h
      simp only [List.mem_append, List.mem_cons, List.not_mem_nil, or_false,
        List.mem_singleton]
      push_neg
      refine ⟨⟨?_, ?_, ?_, ?_, ?_, ?_⟩, ?_⟩
      · exact ne_of_head _ _
          (by rw [head_remoteAddEtcHosts, head_remoteCleanMasterOrNode]; decide)
      · exact ne_of_head _ _
          (by rw [head_remoteAddEtcHosts, head_remoteRemoveEtcHost]; decide)
      · exact ne_of_head _ _
          (by rw [head_remoteAddEtcHosts, head_remoteRemoveEtcHost]; decide)
      · exact ne_of_head _ _
          (by rw [head_remoteAddEtcHosts, head_remoteRemoveRegistryCerts]; decide)
      · exact ne_of_head _ _
          (by rw [head_remoteAddEtcHosts, head_remoteRemoveRegistryCerts]; decide)
      · exact ne_of_head _ _
          (by rw [head_remoteAddEtcHosts, head_remoteRemoveEtcHost]; decide)
      · exact ne_of_head _ _ (by rw [head_remoteAddEtcHosts]; decide)

/-- A cluster with two masters and one worker. -/
def clusterSample : ClusterEnv :=
  { masterIPs := ["192.168.0.2", "192.168.0.3"]
    nodeIPs := ["192.168.0.10"]
    master0IP := "192.168.0.2"
    apiServerDomain := "apiserver.cluster.local"
    regDomain := "sea.hub"
    seaHub := "sea.hub"
    dockerCertDir := "/etc/docker/certs.d"
    vlog := 0 }

/-- A deletion environment in which every remote call succeeds and the
deleted host is the local execution machine. -/
def delEnvLocal : DelEnv :=
  { sshClientOk := fun _ => true
    cleanOk := true
    localAddrOk := true
    isLocalIP := fun _ => true
    nodesOutput := Except.ok "master-1,master-2"
    hostnameOutput := Except.ok "master-2"
    master0SshOk := true
    deleteNodeOk := true
    nodeSshOk := fun _ => true
    nodeCmdOk := fun _ => true }

/-- Witness for C6: deleting a master that is the local execution host
re-adds the API-server hosts entry and does not remove the kubeconfig. -/
theorem remoteCleanCmdList_local_spec_witness :
    remoteAddEtcHosts
        (getAPIServerHostStr clusterSample.master0IP
          clusterSample.apiServerDomain) ∈
      remoteCleanCmdList delEnvLocal clusterSample "192.168.0.3" ∧
    removeKubeConfigCmd ∉
      remoteCleanCmdList delEnvLocal clusterSample "192.168.0.3" :=
  (remoteCleanCmdList_local_spec delEnvLocal clusterSample "192.168.0.3").1 rfl

/-- C5: when no master remains after excluding the deleted host, no
`kubectl delete node` command is issued against any host. -/
theorem deleteMaster_last_master_no_kubectl (env : DelEnv) (k : ClusterEnv)
    (master : IP)
    (h : k.masterIPs.filter (fun ip => ip != master) = []) :
    ∀ host cmd,
      DelEvent.kubectlDeleteNode host cmd ∉ (deleteMaster env k master).1 := by
  intro host cmd
  unfold deleteMaster
  cases hssh : env.sshClientOk master with
  | false => simp
  | true =>
    cases hclean : env.cleanOk with
    | false => simp
    | true => simp [h, lvscarePhase]

/-- A cluster whose only master is being deleted. -/
def clusterLastMaster : ClusterEnv :=
  { masterIPs := ["192.168.0.2"]
    nodeIPs := ["192.168.0.10", "192.168.0.11"]
    master0IP := "192.168.0.2"
    apiServerDomain := "apiserver.cluster.local"
    regDomain := "sea.hub"
    seaHub := "sea.hub"
    dockerCertDir := "/etc/docker/certs.d"
    vlog := 0 }

/-- A deletion environment whose target host is not the local machine and in
which every remote call succeeds. -/
def delEnvAllOk : DelEnv :=
  { sshClientOk := fun _ => true
    cleanOk := true
    localAddrOk := true
    isLocalIP := fun _ => false
    nodesOutput := Except.ok "master-1,master-2"
    hostnameOutput := Except.ok "master-2"
    master0SshOk := true
    deleteNodeOk := true
    nodeSshOk := fun _ => true
    nodeCmdOk := fun _ => true }

/-- Witness for C5: deleting the single remaining master issues no
`kubectl delete node`. -/
theorem deleteMaster_last_master_no_kubectl_witness :
    DelEvent.kubectlDeleteNode "192.168.0.2" "kubectl delete node master-1" ∉
      (deleteMaster delEnvAllOk clusterLastMaster "192.168.0.2").1 :=
  deleteMaster_last_master_no_kubectl delEnvAllOk clusterLastMaster
    "192.168.0.2" (by decide) "192.168.0.2" "kubectl delete node master-1"

/-- A deletion environment whose cleanup batch fails on the target host. -/
def delEnvCleanFail : DelEnv :=
  { sshClientOk := fun _ => true
    cleanOk := false
    localAddrOk := true
    isLocalIP := fun _ => false
    nodesOutput := Except.ok "master-1,master-2"
    hostnameOutput := Except.ok "master-2"
    master0SshOk := true
    deleteNodeOk := true
    nodeSshOk := fun _ => true
    nodeCmdOk := fun _ => true }

/-- C4 counterexample: the cleanup batch on "192.168.0.3" fails while another
master and a worker remain; the claim predicts the membership bookkeeping
(node-record deletion, lvscare refresh) still runs, but the run stops with
the cleanup error — its whole trace is the one cleanup attempt, with no
`kubectlDeleteNode` and no `lvscareUpdate` event. -/
theorem deleteMaster_cleanup_failure_counterexample :
    (deleteMaster delEnvCleanFail clusterSample "192.168.0.3").1 =
      [DelEvent.cleanExec "192.168.0.3"
        (remoteCleanCmdList delEnvCleanFail clusterSample "192.168.0.3")] ∧
    isOkResult (deleteMaster delEnvCleanFail clusterSample "192.168.0.3").2 =
      false :=
  ⟨rfl, rfl⟩

/-- C4 amended: when the target host cannot be reached (SSH client creation
or the cleanup batch fails), `deleteMaster` returns that failure at once and
performs none of the membership bookkeeping; the non-fatal treatment lives
one level up — `deleteMasters` logs each master's failure and always returns
success. -/
theorem deleteMaster_failure_aborts (env : DelEnv) (k : ClusterEnv)
    (master : IP) :
    (env.sshClientOk master = false →
      (deleteMaster env k master).1 = [] ∧
      isOkResult (deleteMaster env k master).2 = false) ∧
    (env.sshClientOk master = true → env.cleanOk = false →
      (deleteMaster env k master).1 =
        [DelEvent.cleanExec master (remoteCleanCmdList env k master)] ∧
      isOkResult (deleteMaster env k master).2 = false) ∧
    ∀ masters, isOkResult (deleteMasters env k masters).2 = true := by
  refine ⟨fun h => ?_, fun h1 h2 => ?_, fun masters => ?_⟩
  · constructor <;> simp [deleteMaster, h, isOkResult]
  · constructor <;> simp [deleteMaster, h1, h2, isOkResult]
  · by_cases he : masters.isEmpty <;> simp [deleteMasters, he, isOkResult]

/-- If no split piece survives trimming and matches the hostname
case-insensitively, the loop of `isHostName` falls through to the empty
string. -/
theorem findNodeName_eq_empty (hostName : String) (l : List String)
    (h : ∀ s ∈ l, goTrim s = "" ∨ goLower s ≠ goLower hostName) :
    findNodeName hostName l = "" := by
  induction l with
  | nil => rfl
  | cons x rest ih =>
    have hx := h x (by simp)
    unfold findNodeName
    by_cases h1 : goTrim x = ""
    · simp only [h1, if_true]
      exact ih (fun s hs => h s (by simp [hs]))
    · rcases hx with h2 | h2
      · exact absurd h2 h1
      · simp only [h1, if_false, h2]
        exact ih (fun s hs => h s (by simp [hs]))

/-- C10: when the `kubectl get nodes` output has no case-insensitive match
for the deleted host's hostname, `isHostName` returns the empty string
without an error, and `deleteMaster` (with other masters remaining and its
remote calls succeeding) still runs `kubectl delete node ` against master0
with an empty node name. -/
theorem isHostName_no_match_spec (env : DelEnv) (k : ClusterEnv) (master : IP)
    (ns hn : String)
    (h1 : env.nodesOutput = Except.ok ns)
    (h2 : env.hostnameOutput = Except.ok hn)
    (h3 : ∀ s ∈ goSplit ns ",", goTrim s = "" ∨ goLower s ≠ goLower hn)
    (h4 : env.sshClientOk master = true)
    (h5 : env.cleanOk = true)
    (h6 : 0 < (k.masterIPs.filter (fun ip => ip != master)).length)
    (h7 : env.master0SshOk = true) :
    isHostName env = Except.ok "" ∧
    DelEvent.kubectlDeleteNode k.master0IP "kubectl delete node " ∈
      (deleteMaster env k master).1 := by
  have hname : findNodeName hn (goSplit ns ",") = "" :=
    findNodeName_eq_empty hn _ h3
  have hhost : isHostName env = Except.ok "" := by
    unfold isHostName
    rw [h1, h2]
    simp [hname]
  refine ⟨hhost, ?_⟩
  have hcmd : kubeDeleteNodeCmd (goTrim "") = "kubectl delete node " := by decide
  rw [← hcmd]
  unfold deleteMaster
  rw [hhost]
  cases hd : env.deleteNodeOk <;>
    simp [h4, h5, h6, h7, hd, lvscarePhase]

/-- A deletion environment whose node listing has no match for the deleted
host's hostname. -/
def delEnvNoMatch : DelEnv :=
  { sshClientOk := fun _ => true
    cleanOk := true
    localAddrOk := true
    isLocalIP := fun _ => false
    nodesOutput := Except.ok "master-1,worker-9"
    hostnameOutput := Except.ok "gone-host"
    master0SshOk := true
    deleteNodeOk := true
    nodeSshOk := fun _ => true
    nodeCmdOk := fun _ => true }

/-- Witness for C10: with listing "master-1,worker-9" and hostname
"gone-host", `isHostName` returns the empty string and the delete-node
command issued against master0 has an empty name. -/
theorem isHostName_no_match_spec_witness :
    isHostName delEnvNoMatch = Except.ok "" ∧
    DelEvent.kubectlDeleteNode clusterSample.master0IP
        "kubectl delete node " ∈
      (deleteMaster delEnvNoMatch clusterSample "192.168.0.3").1 :=
  isHostName_no_match_spec delEnvNoMatch clusterSample "192.168.0.3"
    "master-1,worker-9" "gone-host" rfl rfl (by decide) rfl rfl (by decide) rfl

/-! ## `Runtime.joinMasterConfig` (login.go 274-287) and
`sendJoinCPConfig` (login.go 289-312) -/

/-- Outcomes of the remote calls a per-master config render makes: the
cgroup-driver probe `getCgroupDriverFromShell` (per the spec, the step
detects "that host's current cgroup driver by remote probe"; its source is
outside the staged files) and the SSH client for the config write. -/
structure CfgEnv where
  cgroupRes : IP → Except String String
  sshClientOk : IP → Bool

/-- The lock/config/network events of one per-master goroutine of
`sendJoinCPConfig`. -/
inductive CfgEvent where
  | lock
  | unlock
  | setAPIServerEndpoint
  | setJoinAdvertiseAddress (ip : IP)
  | cgroupProbe (ip : IP)
  | setCgroupDriver
  | marshalConfig
  | sendConfig (ip : IP)
deriving DecidableEq

/-- Remote (network) calls among the events: the cgroup-driver shell probe
and the write of the rendered document to the host. -/
def isNetworkEvent : CfgEvent → Bool
  | .cgroupProbe _ => true
  | .sendConfig _ => true
  | _ => false

/-- `Runtime.joinMasterConfig`: `k.Lock()` with `defer k.Unlock()`, then the
endpoint and advertise-address writes on the shared configuration, the
remote cgroup-driver probe (aborting on failure, the deferred unlock still
running), the cgroup-driver write, and the marshal of the configuration
documents. -/
def joinMasterConfigTrace (env : CfgEnv) (ip : IP) :
    List CfgEvent × Except String Unit :=
  match env.cgroupRes ip with
  | .error e =>
    ([CfgEvent.lock, CfgEvent.setAPIServerEndpoint,
      CfgEvent.setJoinAdvertiseAddress ip, CfgEvent.cgroupProbe ip,
      CfgEvent.unlock], .error e)
  | .ok _driver =>
    ([CfgEvent.lock, CfgEvent.setAPIServerEndpoint,
      CfgEvent.setJoinAdvertiseAddress ip, CfgEvent.cgroupProbe ip,
      CfgEvent.setCgroupDriver, CfgEvent.marshalConfig, CfgEvent.unlock],
      .ok ())

/-- One per-master goroutine of `sendJoinCPConfig`: render the join config
(under the lock), then get the host's SSH client and write the rendered
document to the host's config path. -/
def sendJoinCPConfigTrace (env : CfgEnv) (ip : IP) :
    List CfgEvent × Except String Unit :=
  let render := joinMasterConfigTrace env ip
  match render.2 with
  | .error e => (render.1, .error e)
  | .ok _ =>
    if !env.sshClientOk ip then
      (render.1, .error "failed to get ssh client of host")
    else
      (render.1 ++ [CfgEvent.sendConfig ip], .ok ())

/-- A config environment in which both remote calls succeed. -/
def cfgEnvSample : CfgEnv :=
  { cgroupRes := fun _ => Except.ok "systemd"
    sshClientOk := fun _ => true }

/-- C9 counterexample: in a successful render for "192.168.0.3", a network
call (the cgroup-driver remote probe) occurs before the unlock, i.e. while
the exclusive state lock is held — refuting "no network I/O is performed
while the lock is held". -/
theorem sendJoinCPConfig_network_under_lock :
    ((sendJoinCPConfigTrace cfgEnvSample "192.168.0.3").1.takeWhile
      (fun e => e != CfgEvent.unlock)).any isNetworkEvent = true := by
  decide

/-- C9 amended: every read-modify-write of the shared configuration —
API-server endpoint, advertise address, and the cgroup-driver write
(performed whenever the probe succeeds, and never outside the lock) —
happens while the single exclusive lock is held, and the rendered document's
network write happens only after the lock is released; however the
cgroup-driver remote probe — a network call — is also performed while the
lock is held (the lock spans the whole of `joinMasterConfig`, probe
included). -/
theorem sendJoinCPConfig_lock_discipline (env : CfgEnv) (ip : IP) :
    ∃ held rest,
      (sendJoinCPConfigTrace env ip).1 =
        CfgEvent.lock :: held ++ CfgEvent.unlock :: rest ∧
      CfgEvent.unlock ∉ held ∧
      CfgEvent.setAPIServerEndpoint ∈ held ∧
      CfgEvent.setJoinAdvertiseAddress ip ∈ held ∧
      (isOkResult (env.cgroupRes ip) = true → CfgEvent.setCgroupDriver ∈ held) ∧
      CfgEvent.setCgroupDriver ∉ rest ∧
      CfgEvent.cgroupProbe ip ∈ held ∧
      (∀ j, CfgEvent.sendConfig j ∉ held) ∧
      ∀ e ∈ rest, isNetworkEvent e = true → e = CfgEvent.sendConfig ip := by
  unfold sendJoinCPConfigTrace joinMasterConfigTrace
  cases hc : env.cgroupRes ip with
  | error e =>
    refine ⟨[CfgEvent.setAPIServerEndpoint,
      CfgEvent.setJoinAdvertiseAddress ip, CfgEvent.cgroupProbe ip], [], ?_⟩
    simp [isOkResult]
  | ok driver =>
    cases hs : env.sshClientOk ip with
    | false =>
      refine ⟨[CfgEvent.setAPIServerEndpoint,
        CfgEvent.setJoinAdvertiseAddress ip, CfgEvent.cgroupProbe ip,
        CfgEvent.setCgroupDriver, CfgEvent.marshalConfig], [], ?_⟩
      simp [isOkResult]
    | true =>
      refine ⟨[CfgEvent.setAPIServerEndpoint,
        CfgEvent.setJoinAdvertiseAddress ip, CfgEvent.cgroupProbe ip,
        CfgEvent.setCgroupDriver, CfgEvent.marshalConfig],
        [CfgEvent.sendConfig ip], ?_⟩
      simp [isOkResult]
